import Mathlib

/-!
Verification of the rancher-turtles CAPI import controller against its
specification. The Go source is embedded shallowly: pure helpers become Lean
functions, and each reconciler entry point becomes a function from an explicit
environment (the outcomes of the external client calls it performs) to its
returned result, returned error, and the trace of write operations it issued.
-/

namespace RancherTurtles

/-- Embeds the package-level variable `rancherCAPISuffix` of
`util/naming/name_converter.go`. -/
def rancherCAPISuffix : String := "-capi"

/-- Character-list version of the Go test `strings.HasSuffix`. -/
def hasSuffixChars (s sfx : List Char) : Bool :=
  decide (sfx.length ≤ s.length) && (s.drop (s.length - sfx.length) == sfx)

/-- Embeds `strings.HasSuffix` on strings, via the character list. -/
def strHasSuffix (s sfx : String) : Bool :=
  hasSuffixChars s.data sfx.data

/-- Embeds `strings.TrimSuffix`: drops the trailing occurrence of `sfx` when
present, returns the string unchanged otherwise. -/
def trimSuffix (s sfx : String) : String :=
  if strHasSuffix s sfx then String.mk (s.data.take (s.data.length - sfx.data.length)) else s

/-- Embeds `Name.ToCapiName` of `util/naming/name_converter.go`:
`strings.TrimSuffix(string(n), rancherCAPISuffix)`. -/
def ToCapiName (n : String) : String :=
  trimSuffix n rancherCAPISuffix

/-- Embeds `Name.ToRancherName` of `util/naming/name_converter.go`:
`fmt.Sprintf("%s%s", n.ToCapiName(), rancherCAPISuffix)`. -/
def ToRancherName (n : String) : String :=
  ToCapiName n ++ rancherCAPISuffix

/-- Embeds the constant `importLabelName` of `import_controller.go`. -/
def importLabelName : String := "cluster-api.cattle.io/rancher-auto-import"

/-- Embeds the constant `ownedLabelName` of `import_controller.go`. -/
def ownedLabelName : String := "cluster-api.cattle.io/owned"

/-- Embeds `defaultRequeueDuration = 1 * time.Minute`, in nanoseconds as a Go
`time.Duration` is. -/
def defaultRequeueDuration : Nat := 60 * 1000000000

/-- Embeds `clusterv1.GroupVersion.String()` of the external CAPI library. -/
def capiGroupVersion : String := "cluster.x-k8s.io/v1beta1"

/-- Embeds `clusterv1.ClusterKind` of the external CAPI library. -/
def clusterKind : String := "Cluster"

/-- Modelled from the spec: the fixed annotation key
`turtlesannotations.ClusterImportedAnnotation` marking a CAPI cluster as
already imported; the package defining it is not among the given sources. -/
def clusterImportedKey : String := "imported"

/-- Embeds a Go `ctrl.Result`: the `Requeue` flag and the `RequeueAfter`
duration in nanoseconds. -/
structure CtrlResult where
  requeue : Bool
  requeueAfter : Nat
deriving DecidableEq, Repr

/-- Embeds Go `error` values produced along the reconcile paths: API errors,
wrapped errors from `fmt.Errorf` with `%w`, and `errorutils.NewAggregate`. -/
inductive GoErr where
  | notFound : GoErr
  | alreadyExists : GoErr
  | other : String → GoErr
  | wrapped : String → GoErr → GoErr
  | aggregate : List GoErr → GoErr

/-- Outcome of a `client.Get` call as supplied by the environment: the object
found, a not-found error, or any other error. -/
inductive GetOutcome (α : Type) where
  | found : α → GetOutcome α
  | notFound : GetOutcome α
  | failed : GoErr → GetOutcome α

/-- Embeds a `metav1.OwnerReference` with the fields the controller sets. -/
structure OwnerReference where
  apiVersion : String
  kind : String
  name : String
  uid : String
deriving DecidableEq, Repr

/-- Embeds the fields of a CAPI `clusterv1.Cluster` the controller reads or
writes: identity, labels, annotations, the `Status.ControlPlaneReady` flag and
the truth of the `ControlPlaneReadyCondition`. -/
structure CapiCluster where
  name : String
  nspace : String
  uid : String
  labels : List (String × String)
  annotations : List (String × String)
  controlPlaneReady : Bool
  controlPlaneReadyCondition : Bool
deriving DecidableEq, Repr

/-- Embeds `provisioningv1.ClusterStatus` of the Rancher cluster type. -/
structure RancherClusterStatus where
  clusterName : String
  agentDeployed : Bool
deriving DecidableEq, Repr

/-- Embeds the fields of a Rancher `provisioningv1.Cluster` the controller
reads or writes; `deletionTimestamp = none` embeds a zero deletion timestamp. -/
structure RancherCluster where
  name : String
  nspace : String
  ownerReferences : List OwnerReference
  labels : List (String × String)
  deletionTimestamp : Option Nat
  status : RancherClusterStatus
deriving DecidableEq, Repr

/-- Embeds the fields of a `managementv3.ClusterRegistrationToken` the
controller reads or writes. -/
structure ClusterRegistrationToken where
  name : String
  nspace : String
  specClusterName : String
  manifestURL : String
deriving DecidableEq, Repr

/-- A write operation issued against one of the clients, recorded in the
trace of a reconcile invocation. -/
inductive ClientOp where
  | createRancherCluster : RancherCluster → ClientOp
  | createRegistrationToken : ClusterRegistrationToken → ClientOp
  | patchCapiCluster : CapiCluster → ClientOp
deriving DecidableEq, Repr

/-- Looks a key up in a Go map modelled as an association list. -/
def lookupKey (m : List (String × String)) (k : String) : Option String :=
  match m with
  | [] => none
  | (k2, v) :: rest => if k2 = k then some v else lookupKey rest k

/-- Sets a key in a Go map modelled as an association list. -/
def setKey (m : List (String × String)) (k v : String) : List (String × String) :=
  match m with
  | [] => [(k, v)]
  | (k2, v2) :: rest => if k2 = k then (k2, v) :: rest else (k2, v2) :: setKey rest k v

/-- Embeds Go `strconv.ParseBool`: the accepted true and false spellings. -/
def parseBool (s : String) : Option Bool :=
  if s = "1" ∨ s = "t" ∨ s = "T" ∨ s = "TRUE" ∨ s = "true" ∨ s = "True" then some true
  else if s = "0" ∨ s = "f" ∨ s = "F" ∨ s = "FALSE" ∨ s = "false" ∨ s = "False" then some false
  else none

/-- Modelled from the spec: `util.ShouldImport` is not among the given
sources; per the spec an object qualifies when it carries the designated
label with a truthy value. -/
def labelTruthy (labels : List (String × String)) (key : String) : Bool :=
  match lookupKey labels key with
  | none => false
  | some v => (parseBool v).getD false

/-- Environment of one reconcile invocation: the outcomes the external
clients would give to each call the controller can make. The single
`rancherGet` outcome answers both `Get` calls on the Rancher cluster (the one
in `reconcile` and the repeated one in `reconcileNormal`), reflecting one
unchanged store during the invocation. -/
structure ReconcileEnv where
  capiGet : GetOutcome CapiCluster
  rancherGet : GetOutcome RancherCluster
  nsLabels : Except GoErr (List (String × String))
  createRancherOutcome : Option GoErr
  tokenGet : GetOutcome ClusterRegistrationToken
  tokenCreateOutcome : Option GoErr
  download : String → Except GoErr String
  remoteClient : Option GoErr
  applyManifest : String → Except GoErr Unit
  patchOutcome : Option GoErr

/-- Modelled from the spec: `util.ShouldAutoImport` is not among the given
sources; per the spec, eligibility is true when either the CAPI cluster or its
namespace carries the auto-import label with a truthy value, and the namespace
labels come from a fetch that can fail. -/
def shouldAutoImport (env : ReconcileEnv) (capiCluster : CapiCluster) : Except GoErr Bool :=
  if labelTruthy capiCluster.labels importLabelName then Except.ok true
  else
    match env.nsLabels with
    | Except.error e => Except.error e
    | Except.ok nsl => Except.ok (labelTruthy nsl importLabelName)

/-- The Rancher cluster object built at lines 234 to 247 of
`import_controller.go`: derived name, same namespace, one owner reference to
the CAPI cluster, and the `owned` label with an empty value. -/
def newRancherCluster (capiCluster : CapiCluster) : RancherCluster :=
  { name := ToRancherName capiCluster.name
    nspace := capiCluster.nspace
    ownerReferences := [{ apiVersion := capiGroupVersion
                          kind := clusterKind
                          name := capiCluster.name
                          uid := capiCluster.uid }]
    labels := [(ownedLabelName, "")]
    deletionTimestamp := none
    status := { clusterName := "", agentDeployed := false } }

/-- The registration token object built at lines 323 to 331 of
`import_controller.go`, used both as the `Get` key and as the `Create`
payload. -/
def newRegistrationToken (clusterName nspace : String) : ClusterRegistrationToken :=
  { name := clusterName
    nspace := nspace
    specClusterName := clusterName
    manifestURL := "" }

/-- Embeds `getClusterRegistrationManifest`: fetch the token, create it when
absent, return the empty string while its manifest URL is unset, otherwise
download the manifest. Returns the Go pair `(string, error)` plus the trace of
issued writes. -/
def getClusterRegistrationManifest (env : ReconcileEnv) (clusterName nspace : String) :
    Except GoErr String × List ClientOp :=
  let token := newRegistrationToken clusterName nspace
  match env.tokenGet with
  | GetOutcome.failed e =>
      (Except.error (GoErr.wrapped ("error getting registration token for cluster " ++ clusterName) e), [])
  | GetOutcome.notFound =>
      match env.tokenCreateOutcome with
      | some e =>
          (Except.error (GoErr.wrapped ("failed to create cluster registration token for cluster " ++ clusterName) e),
           [ClientOp.createRegistrationToken token])
      | none => (Except.ok "", [ClientOp.createRegistrationToken token])
  | GetOutcome.found t =>
      if t.manifestURL = "" then (Except.ok "", [])
      else
        match env.download t.manifestURL with
        | Except.error e => (Except.error e, [])
        | Except.ok data => (Except.ok data, [])

/-- Output of `reconcileNormal` and of `reconcile`: the returned
`ctrl.Result`, the returned error, the possibly annotated CAPI cluster, and
the trace of issued writes. -/
structure InnerOut where
  result : CtrlResult
  err : Option GoErr
  capiCluster : CapiCluster
  ops : List ClientOp

/-- Embeds `reconcileNormal` (lines 217 to 298 of `import_controller.go`):
create the Rancher cluster when absent and eligible, requeue while the Rancher
status or the registration manifest is not ready, apply the manifest
otherwise. -/
def reconcileNormal (env : ReconcileEnv) (capiCluster : CapiCluster) : InnerOut :=
  match env.rancherGet with
  | GetOutcome.notFound =>
      match shouldAutoImport env capiCluster with
      | Except.error e =>
          { result := ⟨false, 0⟩, err := some e, capiCluster := capiCluster, ops := [] }
      | Except.ok false =>
          { result := ⟨false, 0⟩, err := none, capiCluster := capiCluster, ops := [] }
      | Except.ok true =>
          let obj := newRancherCluster capiCluster
          match env.createRancherOutcome with
          | some e =>
              { result := ⟨false, 0⟩
                err := some (GoErr.wrapped "error creating rancher cluster" e)
                capiCluster := capiCluster
                ops := [ClientOp.createRancherCluster obj] }
          | none =>
              { result := ⟨true, 0⟩, err := none, capiCluster := capiCluster
                ops := [ClientOp.createRancherCluster obj] }
  | GetOutcome.failed e =>
      { result := ⟨false, 0⟩, err := some e, capiCluster := capiCluster, ops := [] }
  | GetOutcome.found rc =>
      if rc.status.clusterName = "" then
        { result := ⟨true, 0⟩, err := none, capiCluster := capiCluster, ops := [] }
      else if rc.status.agentDeployed then
        { result := ⟨false, 0⟩, err := none, capiCluster := capiCluster, ops := [] }
      else
        match getClusterRegistrationManifest env rc.status.clusterName capiCluster.nspace with
        | (Except.error e, ops) =>
            { result := ⟨false, 0⟩, err := some e, capiCluster := capiCluster, ops := ops }
        | (Except.ok manifest, ops) =>
            if manifest = "" then
              { result := ⟨true, 0⟩, err := none, capiCluster := capiCluster, ops := ops }
            else
              match env.remoteClient with
              | some e =>
                  { result := ⟨false, 0⟩
                    err := some (GoErr.wrapped "getting remote cluster client" e)
                    capiCluster := capiCluster, ops := ops }
              | none =>
                  match env.applyManifest manifest with
                  | Except.error e =>
                      { result := ⟨false, 0⟩
                        err := some (GoErr.wrapped "creating import manifest" e)
                        capiCluster := capiCluster, ops := ops }
                  | Except.ok _ =>
                      { result := ⟨false, 0⟩, err := none, capiCluster := capiCluster, ops := ops }

/-- Embeds `reconcileDelete` (lines 300 to 318 of `import_controller.go`):
set the imported annotation to the string true on the in-memory CAPI cluster
and return an empty result; it issues no client write itself. -/
def reconcileDelete (capiCluster : CapiCluster) : InnerOut :=
  { result := ⟨false, 0⟩
    err := none
    capiCluster := { capiCluster with annotations := setKey capiCluster.annotations clusterImportedKey "true" }
    ops := [] }

/-- Embeds `reconcile` (lines 195 to 215 of `import_controller.go`): fetch the
Rancher cluster; on a non-notfound error requeue with the error; when the
fetched object has a non-zero deletion timestamp take the deletion path,
otherwise the normal path. A not-found fetch leaves the locally built stub,
whose deletion timestamp is zero. -/
def reconcileInner (env : ReconcileEnv) (capiCluster : CapiCluster) : InnerOut :=
  match env.rancherGet with
  | GetOutcome.failed e =>
      { result := ⟨true, 0⟩, err := some e, capiCluster := capiCluster, ops := [] }
  | GetOutcome.notFound => reconcileNormal env capiCluster
  | GetOutcome.found rc =>
      if rc.deletionTimestamp.isSome then reconcileDelete capiCluster
      else reconcileNormal env capiCluster

/-- Output of the top-level `Reconcile`: the returned `ctrl.Result`, the
returned error, and the trace of issued writes. -/
structure ReconcileOut where
  result : CtrlResult
  err : Option GoErr
  ops : List ClientOp

/-- Embeds `Reconcile` (lines 152 to 193 of `import_controller.go`): fetch the
CAPI cluster, requeue when it is missing or the fetch fails, requeue after the
default duration when the control plane is not ready, otherwise run
`reconcile`, always attempt the patch, and aggregate the collected errors. -/
def Reconcile (env : ReconcileEnv) : ReconcileOut :=
  match env.capiGet with
  | GetOutcome.notFound => { result := ⟨true, 0⟩, err := none, ops := [] }
  | GetOutcome.failed e => { result := ⟨true, 0⟩, err := some e, ops := [] }
  | GetOutcome.found capiCluster =>
      if !capiCluster.controlPlaneReady && !capiCluster.controlPlaneReadyCondition then
        { result := ⟨false, defaultRequeueDuration⟩, err := none, ops := [] }
      else
        let o := reconcileInner env capiCluster
        let errs1 : List GoErr :=
          match o.err with
          | some e => [GoErr.wrapped "error reconciling cluster" e]
          | none => []
        let errs : List GoErr :=
          errs1 ++ (match env.patchOutcome with
                    | some e => [GoErr.wrapped "failed to patch cluster" e]
                    | none => [])
        let ops := o.ops ++ [ClientOp.patchCapiCluster o.capiCluster]
        if errs.isEmpty then { result := o.result, err := none, ops := ops }
        else { result := ⟨false, 0⟩, err := some (GoErr.aggregate errs), ops := ops }

/-- Embeds an unstructured Kubernetes object parsed from the manifest: group
version kind plus identity, the fields `createObject` reads. -/
structure ManifestObj where
  gvk : String
  name : String
  nspace : String
deriving DecidableEq, Repr

/-- Outcome of `c.Create` on the remote cluster for one object, as supplied by
the environment: success, an already-exists error, or another error. -/
inductive CreateOutcome where
  | ok : CreateOutcome
  | alreadyExists : CreateOutcome
  | failed : GoErr → CreateOutcome

/-- A raw YAML document as delivered by the `yamlDecoder.NewYAMLReader` split:
either it parses into a list of unstructured objects or
`utilyaml.ToUnstructured` rejects it with a message. -/
inductive RawDoc where
  | valid : List ManifestObj → RawDoc
  | malformed : String → RawDoc

/-- Whether a raw document parses. -/
def RawDoc.isValid : RawDoc → Bool
  | RawDoc.valid _ => true
  | RawDoc.malformed _ => false

/-- The objects of one raw document, empty for a malformed one. -/
def RawDoc.objs : RawDoc → List ManifestObj
  | RawDoc.valid os => os
  | RawDoc.malformed _ => []

/-- Every object parsed from a document stream, in order. -/
def allObjs (docs : List RawDoc) : List ManifestObj :=
  docs.flatMap RawDoc.objs

/-- Whether the environment makes the create of this object fail with an
error other than already-exists. -/
def isHardFailure (create : ManifestObj → CreateOutcome) (o : ManifestObj) : Bool :=
  match create o with
  | CreateOutcome.failed _ => true
  | _ => false

/-- Embeds `createObject` (lines 483 to 500 of `import_controller.go`): issue
one create; an already-exists error is success, any other error is wrapped and
returned. The second component records the create call. -/
def createObject (create : ManifestObj → CreateOutcome) (o : ManifestObj) :
    Option GoErr × List ManifestObj :=
  match create o with
  | CreateOutcome.alreadyExists => (none, [o])
  | CreateOutcome.failed e => (some (GoErr.wrapped "creating object in remote cluster" e), [o])
  | CreateOutcome.ok => (none, [o])

/-- The per-object loop of `createRawManifest` (lines 474 to 478): create each
object in order, aborting on the first returned error. -/
def createObjects (create : ManifestObj → CreateOutcome) :
    List ManifestObj → Option GoErr × List ManifestObj
  | [] => (none, [])
  | o :: rest =>
      match createObject create o with
      | (some e, tr) => (some e, tr)
      | (none, tr) =>
          let out := createObjects create rest
          (out.fst, tr ++ out.snd)

/-- Embeds `createRawManifest` (lines 468 to 481 of `import_controller.go`):
parse the raw document with `utilyaml.ToUnstructured`, wrapping a parse
failure, then create each parsed object. -/
def createRawManifest (create : ManifestObj → CreateOutcome) (doc : RawDoc) :
    Option GoErr × List ManifestObj :=
  match doc with
  | RawDoc.malformed msg =>
      (some (GoErr.wrapped "error unmarshalling bytes or empty object passed" (GoErr.other msg)), [])
  | RawDoc.valid os => createObjects create os

/-- Embeds `createImportManifest` (lines 447 to 466 of `import_controller.go`):
read raw documents until end of stream, handing each to `createRawManifest`
and aborting on the first returned error. -/
def createImportManifest (create : ManifestObj → CreateOutcome) :
    List RawDoc → Option GoErr × List ManifestObj
  | [] => (none, [])
  | d :: rest =>
      match createRawManifest create d with
      | (some e, tr) => (some e, tr)
      | (none, tr) =>
          let out := createImportManifest create rest
          (out.fst, tr ++ out.snd)

/-- Whether a traced write is a create of a Rancher provisioning cluster. -/
def isCreateRancherOp : ClientOp → Bool
  | ClientOp.createRancherCluster _ => true
  | _ => false

/-- A CAPI cluster whose control-plane-ready flag is false while the
ControlPlaneReady condition is true. -/
def capiFlagFalseCondTrue : CapiCluster :=
  { name := "c1", nspace := "ns1", uid := "uid1", labels := [], annotations := []
    controlPlaneReady := false, controlPlaneReadyCondition := true }

/-- A ready CAPI cluster carrying the auto-import label. -/
def capiEligible : CapiCluster :=
  { name := "team-a", nspace := "ns1", uid := "uid-7"
    labels := [(importLabelName, "true")], annotations := []
    controlPlaneReady := true, controlPlaneReadyCondition := false }

/-- A ready CAPI cluster with no labels. -/
def capiNoImport : CapiCluster :=
  { name := "c1", nspace := "ns1", uid := "uid1", labels := [], annotations := []
    controlPlaneReady := true, controlPlaneReadyCondition := true }

/-- A CAPI cluster whose control-plane-ready flag and condition are both
false. -/
def capiNotReady : CapiCluster :=
  { name := "c1", nspace := "ns1", uid := "uid1", labels := [], annotations := []
    controlPlaneReady := false, controlPlaneReadyCondition := false }

/-- A Rancher cluster already present, not deleting, with an agent deployed. -/
def rancherAgentDeployed : RancherCluster :=
  { name := "c1-capi", nspace := "ns1", ownerReferences := [], labels := []
    deletionTimestamp := none
    status := { clusterName := "c-m-abc", agentDeployed := true } }

/-- A Rancher cluster being deleted: its deletion timestamp is set. -/
def rancherDeleting : RancherCluster :=
  { name := "c1-capi", nspace := "ns1", ownerReferences := [], labels := []
    deletionTimestamp := some 1700000000
    status := { clusterName := "c-m-abc", agentDeployed := false } }

/-- A Rancher cluster whose status has no cluster name yet. -/
def rancherNoName : RancherCluster :=
  { name := "c1-capi", nspace := "ns1", ownerReferences := [], labels := []
    deletionTimestamp := none
    status := { clusterName := "", agentDeployed := false } }

/-- A Rancher cluster with a status cluster name and no agent deployed. -/
def rancherNamed : RancherCluster :=
  { name := "c1-capi", nspace := "ns1", ownerReferences := [], labels := []
    deletionTimestamp := none
    status := { clusterName := "c-m-abc", agentDeployed := false } }

/-- A registration token whose manifest URL is still empty. -/
def tokenNoURL : ClusterRegistrationToken :=
  { name := "c-m-abc", nspace := "ns1", specClusterName := "c-m-abc", manifestURL := "" }

/-- Environment refuting claim C4: every external call succeeds, the Rancher
cluster already exists with its agent deployed, and the CAPI cluster has a
false ready flag but a true ready condition. -/
def envC4 : ReconcileEnv :=
  { capiGet := GetOutcome.found capiFlagFalseCondTrue
    rancherGet := GetOutcome.found rancherAgentDeployed
    nsLabels := Except.ok []
    createRancherOutcome := none
    tokenGet := GetOutcome.notFound
    tokenCreateOutcome := none
    download := fun _ => Except.ok ""
    remoteClient := none
    applyManifest := fun _ => Except.ok ()
    patchOutcome := none }

/-- Environment for the C4 witness: same world as `envC4` with a CAPI cluster
that is not ready under both the flag and the condition. -/
def envC4w : ReconcileEnv :=
  { envC4 with capiGet := GetOutcome.found capiNotReady }

/-- Environment for the C1 witness: an eligible ready CAPI cluster, no Rancher
cluster yet, and a successful create and patch. -/
def envC1 : ReconcileEnv :=
  { envC4 with capiGet := GetOutcome.found capiEligible, rancherGet := GetOutcome.notFound }

/-- Environment for the C2 witness: a ready CAPI cluster without the
auto-import label, an unlabelled namespace, and no Rancher cluster. -/
def envC2 : ReconcileEnv :=
  { envC4 with capiGet := GetOutcome.found capiNoImport, rancherGet := GetOutcome.notFound }

/-- Environment for the C3 witness: the fetched Rancher cluster is being
deleted. -/
def envC3 : ReconcileEnv :=
  { envC4 with capiGet := GetOutcome.found capiNoImport
               rancherGet := GetOutcome.found rancherDeleting }

/-- Environment for the C7 witness: the Rancher cluster fetch fails with a
hard error and the final patch also fails. -/
def envC7 : ReconcileEnv :=
  { envC4 with capiGet := GetOutcome.found capiNoImport
               rancherGet := GetOutcome.failed (GoErr.other "boom")
               patchOutcome := some (GoErr.other "conflict") }

/-- Environment for C10, first state: the Rancher cluster exists but its
status cluster name is empty. -/
def envC10a : ReconcileEnv :=
  { envC4 with capiGet := GetOutcome.found capiNoImport
               rancherGet := GetOutcome.found rancherNoName }

/-- Environment for C10, second state: the Rancher cluster is named, the agent
is not deployed, and the registration token has no manifest URL yet. -/
def envC10b : ReconcileEnv :=
  { envC4 with capiGet := GetOutcome.found capiNoImport
               rancherGet := GetOutcome.found rancherNamed
               tokenGet := GetOutcome.found tokenNoURL }

/-- First sample manifest object. -/
def obj1 : ManifestObj := { gvk := "v1/Namespace", name := "cattle-system", nspace := "" }

/-- Second sample manifest object, the one that already exists remotely. -/
def obj2 : ManifestObj := { gvk := "v1/ServiceAccount", name := "cattle", nspace := "cattle-system" }

/-- Third sample manifest object. -/
def obj3 : ManifestObj := { gvk := "apps.v1/Deployment", name := "cattle-agent", nspace := "cattle-system" }

/-- Remote create outcomes for the C5 witness: `obj2` already exists, every
other create succeeds. -/
def createEnvSoft : ManifestObj → CreateOutcome :=
  fun o => if o = obj2 then CreateOutcome.alreadyExists else CreateOutcome.ok

/-- Remote create outcomes for the abort half of the C5 witness: `obj2` fails
with a permission error, every other create succeeds. -/
def createEnvHard : ManifestObj → CreateOutcome :=
  fun o => if o = obj2 then CreateOutcome.failed (GoErr.other "forbidden") else CreateOutcome.ok

/-- A two-document manifest stream: the first document parses to two objects,
the second to one. -/
def docsTwo : List RawDoc := [RawDoc.valid [obj1, obj2], RawDoc.valid [obj3]]

end RancherTurtles

namespace RancherTurtles

theorem hasSuffixChars_append (a b : List Char) : hasSuffixChars (a ++ b) b = true := by
  simp [hasSuffixChars, List.length_append, Nat.add_sub_cancel]

theorem trimSuffix_append (a : String) (sfx : String) :
    trimSuffix (a ++ sfx) sfx = a := by
  have hdata : (a ++ sfx).data = a.data ++ sfx.data := rfl
  have hsuf : strHasSuffix (a ++ sfx) sfx = true := by
    simpa [strHasSuffix, hdata] using hasSuffixChars_append a.data sfx.data
  simp only [trimSuffix, hsuf, if_pos]
  apply congrArg String.mk
  simp [hdata, List.length_append, Nat.add_sub_cancel]

end RancherTurtles

namespace RancherTurtles

theorem ToCapiName_append_suffix (n : String) :
    ToCapiName (n ++ rancherCAPISuffix) = trimSuffix n rancherCAPISuffix ++ rancherCAPISuffix ∨
    ToCapiName (n ++ rancherCAPISuffix) = n := Or.inr (trimSuffix_append n rancherCAPISuffix)

theorem ToCapiName_ToRancherName (n : String) :
    ToCapiName (ToRancherName n) = ToCapiName n :=
  trimSuffix_append (ToCapiName n) rancherCAPISuffix

theorem trimSuffix_no_suffix (n sfx : String) (h : strHasSuffix n sfx = false) :
    trimSuffix n sfx = n := by
  simp [trimSuffix, h]

/-- Claim C8: the round trip `ToCapiName (ToRancherName n) = n` fails for the
valid CAPI name `cluster-capi`, because `ToRancherName` first strips the
suffix: the round trip returns `cluster`. -/
theorem C8_counterexample :
    ¬ ToCapiName (ToRancherName "cluster-capi") = "cluster-capi" := by decide

/-- Claim C8 (amended): for every name `n` that does not already end in the
`-capi` suffix, `ToCapiName (ToRancherName n) = n`. -/
theorem C8_roundtrip (n : String) (h : strHasSuffix n rancherCAPISuffix = false) :
    ToCapiName (ToRancherName n) = n := by
  calc ToCapiName (ToRancherName n)
      = ToCapiName n := ToCapiName_ToRancherName n
    _ = n := trimSuffix_no_suffix n rancherCAPISuffix h

/-- Witness for C8: the amended round trip evaluated at the concrete name
`my-cluster`. -/
theorem C8_roundtrip_witness :
    strHasSuffix "my-cluster" rancherCAPISuffix = false ∧
    ToCapiName (ToRancherName "my-cluster") = "my-cluster" :=
  ⟨by decide, C8_roundtrip "my-cluster" (by decide)⟩

/-- Claim C9: `ToRancherName` does not always append the literal suffix to its
argument; at the name `foo-capi` it strips the existing suffix first and
returns `foo-capi`, not `foo-capi-capi`, so it is idempotent there. -/
theorem C9_counterexample :
    ¬ (ToRancherName "foo-capi" = "foo-capi" ++ rancherCAPISuffix ∧
       ToRancherName (ToRancherName "foo-capi") = ToRancherName "foo-capi" ++ rancherCAPISuffix) := by
  decide

/-- Claim C9 (amended): `ToRancherName n` equals `ToCapiName n` with the
`-capi` suffix appended, so an existing trailing suffix is stripped before
appending, and `ToRancherName` is idempotent: applying it twice never appends
the suffix twice. -/
theorem C9_normalizing (n : String) :
    ToRancherName n = ToCapiName n ++ rancherCAPISuffix ∧
    ToRancherName (ToRancherName n) = ToRancherName n := by
  refine ⟨rfl, ?_⟩
  show ToCapiName (ToRancherName n) ++ rancherCAPISuffix = ToRancherName n
  rw [ToCapiName_ToRancherName n]
  rfl

end RancherTurtles

namespace RancherTurtles

/-- Claim C4: a CAPI cluster whose control-plane-ready flag is false does not
always produce a one-minute requeue with no writes: when the ControlPlaneReady
condition is true the reconciler proceeds, here finishing with an empty result
and issuing the final patch write. -/
theorem C4_counterexample :
    ¬ ((Reconcile envC4).result = ⟨false, defaultRequeueDuration⟩ ∧
       (Reconcile envC4).ops = []) := by decide

/-- Claim C4 (amended): for every CAPI cluster whose control-plane-ready flag
is false and whose ControlPlaneReady condition is not true, `Reconcile`
returns a requeue after the fixed one-minute default with no error and
performs no writes. -/
theorem C4_not_ready_requeues (env : ReconcileEnv) (c : CapiCluster)
    (hget : env.capiGet = GetOutcome.found c)
    (h1 : c.controlPlaneReady = false)
    (h2 : c.controlPlaneReadyCondition = false) :
    (Reconcile env).result = ⟨false, defaultRequeueDuration⟩ ∧
    (Reconcile env).err = none ∧ (Reconcile env).ops = [] := by
  simp [Reconcile, hget, h1, h2]

/-- Witness for C4: the amended statement evaluated at a concrete not-ready
cluster. -/
theorem C4_not_ready_requeues_witness :
    (Reconcile envC4w).result = ⟨false, defaultRequeueDuration⟩ ∧
    (Reconcile envC4w).err = none ∧ (Reconcile envC4w).ops = [] :=
  C4_not_ready_requeues envC4w capiNotReady rfl rfl rfl

end RancherTurtles

namespace RancherTurtles

theorem lookupKey_setKey (m : List (String × String)) (k v : String) :
    lookupKey (setKey m k v) k = some v := by
  induction m with
  | nil => simp [setKey, lookupKey]
  | cons p rest ih =>
      obtain ⟨k2, v2⟩ := p
      by_cases h : k2 = k <;> simp [setKey, lookupKey, h, ih]

theorem guard_false_of_ready (c : CapiCluster)
    (h : (c.controlPlaneReady || c.controlPlaneReadyCondition) = true) :
    (!c.controlPlaneReady && !c.controlPlaneReadyCondition) = false := by
  cases h1 : c.controlPlaneReady <;> cases h2 : c.controlPlaneReadyCondition <;> simp_all

/-- Claim C1: when the CAPI cluster is fetched, its control plane is ready,
no Rancher cluster exists, auto-import is eligible, and the create and patch
succeed, `Reconcile` issues exactly one create of a Rancher provisioning
cluster, whose name is the derived Rancher name, whose single owner reference
carries the CAPI API version, the Cluster kind, the CAPI cluster name and its
UID, which carries the owned label, and returns a requeue with no error. -/
theorem C1_creates_rancher_cluster (env : ReconcileEnv) (c : CapiCluster)
    (hget : env.capiGet = GetOutcome.found c)
    (hready : (c.controlPlaneReady || c.controlPlaneReadyCondition) = true)
    (hrc : env.rancherGet = GetOutcome.notFound)
    (himp : shouldAutoImport env c = Except.ok true)
    (hcreate : env.createRancherOutcome = none)
    (hpatch : env.patchOutcome = none) :
    (Reconcile env).ops.filter isCreateRancherOp =
      [ClientOp.createRancherCluster (newRancherCluster c)] ∧
    (newRancherCluster c).name = ToRancherName c.name ∧
    (newRancherCluster c).ownerReferences =
      [{ apiVersion := capiGroupVersion, kind := clusterKind, name := c.name, uid := c.uid }] ∧
    lookupKey (newRancherCluster c).labels ownedLabelName = some "" ∧
    (Reconcile env).result = ⟨true, 0⟩ ∧ (Reconcile env).err = none := by
  have hguard := guard_false_of_ready c hready
  refine ⟨?_, rfl, rfl, by simp [newRancherCluster, lookupKey], ?_, ?_⟩ <;>
    simp [Reconcile, hget, hguard, reconcileInner, hrc, reconcileNormal, himp, hcreate,
          hpatch, isCreateRancherOp]

/-- Witness for C1: the creation behaviour evaluated at the concrete eligible
environment `envC1`. -/
theorem C1_creates_rancher_cluster_witness :
    (Reconcile envC1).ops.filter isCreateRancherOp =
      [ClientOp.createRancherCluster (newRancherCluster capiEligible)] ∧
    (newRancherCluster capiEligible).name = ToRancherName capiEligible.name ∧
    (newRancherCluster capiEligible).ownerReferences =
      [{ apiVersion := capiGroupVersion, kind := clusterKind
         name := capiEligible.name, uid := capiEligible.uid }] ∧
    lookupKey (newRancherCluster capiEligible).labels ownedLabelName = some "" ∧
    (Reconcile envC1).result = ⟨true, 0⟩ ∧ (Reconcile envC1).err = none :=
  C1_creates_rancher_cluster envC1 capiEligible rfl rfl rfl rfl rfl rfl

/-- Claim C3: whenever the fetched Rancher cluster has a non-zero deletion
timestamp, `reconcile` takes the deletion path before any creation or update
handling, sets the imported annotation on the CAPI cluster to the string true,
issues no client write, and returns an empty result with no error. -/
theorem C3_deletion_precedence (env : ReconcileEnv) (c : CapiCluster) (rc : RancherCluster)
    (hget : env.rancherGet = GetOutcome.found rc)
    (hdel : rc.deletionTimestamp.isSome = true) :
    reconcileInner env c = reconcileDelete c ∧
    lookupKey (reconcileInner env c).capiCluster.annotations clusterImportedKey = some "true" ∧
    (reconcileInner env c).ops = [] ∧
    (reconcileInner env c).result = ⟨false, 0⟩ ∧
    (reconcileInner env c).err = none := by
  have h : reconcileInner env c = reconcileDelete c := by
    simp [reconcileInner, hget, hdel]
  refine ⟨h, ?_, ?_, ?_, ?_⟩ <;> simp [h, reconcileDelete, lookupKey_setKey]

/-- Witness for C3: the deletion path evaluated at the concrete environment
`envC3`, whose Rancher cluster carries a deletion timestamp. -/
theorem C3_deletion_precedence_witness :
    reconcileInner envC3 capiNoImport = reconcileDelete capiNoImport ∧
    lookupKey (reconcileInner envC3 capiNoImport).capiCluster.annotations
      clusterImportedKey = some "true" ∧
    (reconcileInner envC3 capiNoImport).ops = [] ∧
    (reconcileInner envC3 capiNoImport).result = ⟨false, 0⟩ ∧
    (reconcileInner envC3 capiNoImport).err = none :=
  C3_deletion_precedence envC3 capiNoImport rancherDeleting rfl rfl

end RancherTurtles

namespace RancherTurtles

/-- Claim C7: past the CAPI fetch and the readiness guard, `Reconcile` always
issues the optimistic-concurrency patch of the CAPI cluster, whatever the
transition step returned; and when both the transition step and the patch step
fail, the returned error aggregates the two wrapped errors in order. -/
theorem C7_patch_always_and_aggregate (env : ReconcileEnv) (c : CapiCluster)
    (hget : env.capiGet = GetOutcome.found c)
    (hready : (c.controlPlaneReady || c.controlPlaneReadyCondition) = true) :
    ClientOp.patchCapiCluster (reconcileInner env c).capiCluster ∈ (Reconcile env).ops ∧
    (∀ e1 e2, (reconcileInner env c).err = some e1 → env.patchOutcome = some e2 →
      (Reconcile env).err = some (GoErr.aggregate
        [GoErr.wrapped "error reconciling cluster" e1,
         GoErr.wrapped "failed to patch cluster" e2])) := by
  have hguard := guard_false_of_ready c hready
  constructor
  · unfold Reconcile
    rw [hget]
    simp only [hguard, Bool.false_eq_true, if_false]
    split <;> simp
  · intro e1 e2 he1 he2
    simp [Reconcile, hget, hguard, he1, he2]

/-- Witness for C7: both steps fail in `envC7`; the patch is still traced and
the returned error aggregates both wrapped errors. -/
theorem C7_patch_always_and_aggregate_witness :
    ClientOp.patchCapiCluster (reconcileInner envC7 capiNoImport).capiCluster ∈
      (Reconcile envC7).ops ∧
    (Reconcile envC7).err = some (GoErr.aggregate
      [GoErr.wrapped "error reconciling cluster" (GoErr.other "boom"),
       GoErr.wrapped "failed to patch cluster" (GoErr.other "conflict")]) :=
  ⟨(C7_patch_always_and_aggregate envC7 capiNoImport rfl rfl).1,
   (C7_patch_always_and_aggregate envC7 capiNoImport rfl rfl).2
     (GoErr.other "boom") (GoErr.other "conflict") rfl rfl⟩

/-- Claim C10: in the state where the Rancher cluster exists but its status
cluster name is empty, `reconcileNormal` requests an immediate requeue with a
zero RequeueAfter, not a requeue after the one-minute default, refuting the
claimed fixed delay. -/
theorem C10_counterexample :
    (reconcileNormal envC10a capiNoImport).result = ⟨true, 0⟩ ∧
    (reconcileNormal envC10a capiNoImport).result.requeueAfter ≠ defaultRequeueDuration := by
  decide

/-- Claim C10 (amended): in the state where the Rancher cluster exists with an
empty status cluster name, and in the state where the agent is not deployed
and the found registration token has an empty manifest URL, `reconcileNormal`
returns an immediate requeue (Requeue true, zero RequeueAfter) with no error
and performs no further action. -/
theorem C10_requeues_immediately (env : ReconcileEnv) (c : CapiCluster)
    (rc : RancherCluster) (t : ClusterRegistrationToken)
    (hrc : env.rancherGet = GetOutcome.found rc)
    (hnodel : rc.deletionTimestamp = none) :
    (rc.status.clusterName = "" →
      reconcileNormal env c =
        { result := ⟨true, 0⟩, err := none, capiCluster := c, ops := [] } ∧
      reconcileInner env c = reconcileNormal env c) ∧
    (rc.status.clusterName ≠ "" → rc.status.agentDeployed = false →
      env.tokenGet = GetOutcome.found t → t.manifestURL = "" →
      reconcileNormal env c =
        { result := ⟨true, 0⟩, err := none, capiCluster := c, ops := [] } ∧
      reconcileInner env c = reconcileNormal env c) := by
  constructor
  · intro hname
    constructor
    · simp [reconcileNormal, hrc, hname]
    · simp [reconcileInner, hrc, hnodel]
  · intro hname hagent htok hurl
    constructor
    · simp [reconcileNormal, hrc, hname, hagent, getClusterRegistrationManifest, htok, hurl]
    · simp [reconcileInner, hrc, hnodel]

/-- Witness for C10: the two amended states evaluated at the concrete
environments `envC10a` and `envC10b`. -/
theorem C10_requeues_immediately_witness :
    (reconcileNormal envC10a capiNoImport =
      { result := ⟨true, 0⟩, err := none, capiCluster := capiNoImport, ops := [] } ∧
     reconcileInner envC10a capiNoImport = reconcileNormal envC10a capiNoImport) ∧
    (reconcileNormal envC10b capiNoImport =
      { result := ⟨true, 0⟩, err := none, capiCluster := capiNoImport, ops := [] } ∧
     reconcileInner envC10b capiNoImport = reconcileNormal envC10b capiNoImport) :=
  ⟨(C10_requeues_immediately envC10a capiNoImport rancherNoName tokenNoURL rfl rfl).1 rfl,
   (C10_requeues_immediately envC10b capiNoImport rancherNamed tokenNoURL rfl rfl).2
     (by decide) rfl rfl rfl⟩

end RancherTurtles

namespace RancherTurtles

theorem ready_of_guard_false (c : CapiCluster)
    (h : (!c.controlPlaneReady && !c.controlPlaneReadyCondition) = false) :
    (c.controlPlaneReady || c.controlPlaneReadyCondition) = true := by
  cases h1 : c.controlPlaneReady <;> cases h2 : c.controlPlaneReadyCondition <;> simp_all

theorem getManifest_no_rancher_create (env : ReconcileEnv) (cn ns : String)
    (rc : RancherCluster) :
    ClientOp.createRancherCluster rc ∉ (getClusterRegistrationManifest env cn ns).snd := by
  unfold getClusterRegistrationManifest
  cases env.tokenGet with
  | failed e => simp
  | notFound => cases env.tokenCreateOutcome <;> simp
  | found t =>
      by_cases hurl : t.manifestURL = ""
      · simp [hurl]
      · cases hd : env.download t.manifestURL <;> simp [hurl, hd]

theorem reconcileNormal_found_ops (env : ReconcileEnv) (c : CapiCluster)
    (rc2 : RancherCluster) (hr : env.rancherGet = GetOutcome.found rc2) :
    (reconcileNormal env c).ops = [] ∨
    (reconcileNormal env c).ops =
      (getClusterRegistrationManifest env rc2.status.clusterName c.nspace).snd := by
  by_cases hname : rc2.status.clusterName = ""
  · left; simp [reconcileNormal, hr, hname]
  · by_cases hagent : rc2.status.agentDeployed = true
    · left; simp [reconcileNormal, hr, hname, hagent]
    · right
      cases hg : getClusterRegistrationManifest env rc2.status.clusterName c.nspace with
      | mk res ops =>
          cases res with
          | error e => simp [reconcileNormal, hr, hname, hagent, hg]
          | ok manifest =>
              by_cases hman : manifest = ""
              · simp [reconcileNormal, hr, hname, hagent, hg, hman]
              · cases hrem : env.remoteClient with
                | some e => simp [reconcileNormal, hr, hname, hagent, hg, hman, hrem]
                | none =>
                    cases happ : env.applyManifest manifest <;>
                      simp [reconcileNormal, hr, hname, hagent, hg, hman, hrem, happ]

theorem reconcileNormal_create_inversion (env : ReconcileEnv) (c : CapiCluster)
    (rc : RancherCluster)
    (h : ClientOp.createRancherCluster rc ∈ (reconcileNormal env c).ops) :
    shouldAutoImport env c = Except.ok true := by
  cases hr : env.rancherGet with
  | failed e =>
      have hops : (reconcileNormal env c).ops = [] := by simp [reconcileNormal, hr]
      rw [hops] at h; simp at h
  | notFound =>
      cases himp : shouldAutoImport env c with
      | error e =>
          have hops : (reconcileNormal env c).ops = [] := by simp [reconcileNormal, hr, himp]
          rw [hops] at h; simp at h
      | ok b =>
          cases b
          · have hops : (reconcileNormal env c).ops = [] := by simp [reconcileNormal, hr, himp]
            rw [hops] at h; simp at h
          · rfl
  | found rc2 =>
      rcases reconcileNormal_found_ops env c rc2 hr with hops | hops
      · rw [hops] at h; simp at h
      · rw [hops] at h
        exact absurd h (getManifest_no_rancher_create env rc2.status.clusterName c.nspace rc)

theorem reconcileInner_create_inversion (env : ReconcileEnv) (c : CapiCluster)
    (rc : RancherCluster)
    (h : ClientOp.createRancherCluster rc ∈ (reconcileInner env c).ops) :
    shouldAutoImport env c = Except.ok true := by
  unfold reconcileInner at h
  cases hr : env.rancherGet with
  | failed e => rw [hr] at h; simp at h
  | notFound => rw [hr] at h; exact reconcileNormal_create_inversion env c rc h
  | found rc2 =>
      rw [hr] at h
      by_cases hdel : rc2.deletionTimestamp.isSome = true
      · simp [hdel, reconcileDelete] at h
      · simp only [hdel, if_false, Bool.false_eq_true] at h
        exact reconcileNormal_create_inversion env c rc h

end RancherTurtles

namespace RancherTurtles

/-- Claim C2: across every reconcile invocation, a create of a Rancher
provisioning cluster is issued only when the fetched CAPI cluster is
control-plane ready and the auto-import predicate holds; and when the Rancher
cluster is absent and the cluster is not eligible, nothing is created and a
non-requeueing success is returned. -/
theorem C2_create_only_when_eligible (env : ReconcileEnv) :
    (∀ rc : RancherCluster, ClientOp.createRancherCluster rc ∈ (Reconcile env).ops →
      ∃ c, env.capiGet = GetOutcome.found c ∧
        (c.controlPlaneReady || c.controlPlaneReadyCondition) = true ∧
        shouldAutoImport env c = Except.ok true) ∧
    (∀ c, env.capiGet = GetOutcome.found c →
      (c.controlPlaneReady || c.controlPlaneReadyCondition) = true →
      env.rancherGet = GetOutcome.notFound →
      shouldAutoImport env c = Except.ok false →
      env.patchOutcome = none →
      (Reconcile env).ops = [ClientOp.patchCapiCluster c] ∧
      (Reconcile env).result = ⟨false, 0⟩ ∧ (Reconcile env).err = none) := by
  constructor
  · intro rc h
    cases hc : env.capiGet with
    | notFound =>
        have hops : (Reconcile env).ops = [] := by simp [Reconcile, hc]
        rw [hops] at h; simp at h
    | failed e =>
        have hops : (Reconcile env).ops = [] := by simp [Reconcile, hc]
        rw [hops] at h; simp at h
    | found c =>
        refine ⟨c, rfl, ?_, ?_⟩
        · by_cases hg : (!c.controlPlaneReady && !c.controlPlaneReadyCondition) = true
          · have hops : (Reconcile env).ops = [] := by simp [Reconcile, hc, hg]
            rw [hops] at h; simp at h
          · exact ready_of_guard_false c (by simpa using hg)
        · by_cases hg : (!c.controlPlaneReady && !c.controlPlaneReadyCondition) = true
          · have hops : (Reconcile env).ops = [] := by simp [Reconcile, hc, hg]
            rw [hops] at h; simp at h
          · have hg2 : (!c.controlPlaneReady && !c.controlPlaneReadyCondition) = false := by
              simpa using hg
            have hops : (Reconcile env).ops =
                (reconcileInner env c).ops ++
                  [ClientOp.patchCapiCluster (reconcileInner env c).capiCluster] := by
              unfold Reconcile
              rw [hc]
              simp only [hg2, Bool.false_eq_true, if_false]
              split <;> rfl
            rw [hops] at h
            rcases List.mem_append.mp h with h2 | h2
            · exact reconcileInner_create_inversion env c rc h2
            · simp at h2
  · intro c hget hready hrc himp hpatch
    have hguard := guard_false_of_ready c hready
    refine ⟨?_, ?_, ?_⟩ <;>
      simp [Reconcile, hget, hguard, reconcileInner, hrc, reconcileNormal, himp, hpatch]

/-- Witness for C2: in the concrete non-eligible environment `envC2` the
reconciler issues only the final patch and returns an empty success. -/
theorem C2_create_only_when_eligible_witness :
    (Reconcile envC2).ops = [ClientOp.patchCapiCluster capiNoImport] ∧
    (Reconcile envC2).result = ⟨false, 0⟩ ∧ (Reconcile envC2).err = none :=
  (C2_create_only_when_eligible envC2).2 capiNoImport rfl rfl rfl rfl rfl

end RancherTurtles

namespace RancherTurtles

theorem createObjects_soft (create : ManifestObj → CreateOutcome) (os : List ManifestObj)
    (h : ∀ o ∈ os, isHardFailure create o = false) :
    createObjects create os = (none, os) := by
  induction os with
  | nil => rfl
  | cons o rest ih =>
      have ho : isHardFailure create o = false := h o (by simp)
      have hrest := ih (fun p hp => h p (by simp [hp]))
      cases hco : create o with
      | ok => simp [createObjects, createObject, hco, hrest]
      | alreadyExists => simp [createObjects, createObject, hco, hrest]
      | failed e => simp [isHardFailure, hco] at ho

theorem createObjects_soft_front (create : ManifestObj → CreateOutcome)
    (pre rest : List ManifestObj)
    (h : ∀ p ∈ pre, isHardFailure create p = false) :
    createObjects create (pre ++ rest) =
      ((createObjects create rest).fst, pre ++ (createObjects create rest).snd) := by
  induction pre with
  | nil => simp
  | cons o pre2 ih =>
      have ho : isHardFailure create o = false := h o (by simp)
      have ih2 := ih (fun p hp => h p (by simp [hp]))
      cases hco : create o with
      | ok => simp [createObjects, createObject, hco, ih2]
      | alreadyExists => simp [createObjects, createObject, hco, ih2]
      | failed e => simp [isHardFailure, hco] at ho

theorem createObjects_first_failure (create : ManifestObj → CreateOutcome)
    (pre : List ManifestObj) (o : ManifestObj) (post : List ManifestObj) (e : GoErr)
    (hpre : ∀ p ∈ pre, isHardFailure create p = false)
    (ho : create o = CreateOutcome.failed e) :
    createObjects create (pre ++ o :: post) =
      (some (GoErr.wrapped "creating object in remote cluster" e), pre ++ [o]) := by
  rw [createObjects_soft_front create pre (o :: post) hpre]
  simp [createObjects, createObject, ho]

theorem createImportManifest_eq_createObjects (create : ManifestObj → CreateOutcome)
    (docs : List RawDoc) (hvalid : ∀ d ∈ docs, d.isValid = true) :
    createImportManifest create docs = createObjects create (allObjs docs) := by
  induction docs with
  | nil => rfl
  | cons d rest ih =>
      have hd : d.isValid = true := hvalid d (by simp)
      have ih2 := ih (fun x hx => hvalid x (by simp [hx]))
      cases d with
      | malformed msg => simp [RawDoc.isValid] at hd
      | valid os =>
          have hall : allObjs (RawDoc.valid os :: rest) = os ++ allObjs rest := by
            simp [allObjs, RawDoc.objs]
          rw [hall]
          clear hall hd hvalid
          induction os with
          | nil => simpa [createImportManifest, createRawManifest, createObjects] using ih2
          | cons o os2 ihos =>
              cases hco : create o with
              | ok =>
                  simp only [createImportManifest, createRawManifest, createObjects,
                             createObject, hco, List.cons_append] at ihos ⊢
                  cases h2 : createObjects create (os2 ++ allObjs rest) with
                  | mk f2 t2 =>
                      cases h3 : createObjects create os2 with
                      | mk f3 t3 =>
                          simp only [h3] at ihos ⊢
                          cases f3 with
                          | some e3 => simp_all
                          | none => simp_all [List.append_assoc]
              | alreadyExists =>
                  simp only [createImportManifest, createRawManifest, createObjects,
                             createObject, hco, List.cons_append] at ihos ⊢
                  cases h2 : createObjects create (os2 ++ allObjs rest) with
                  | mk f2 t2 =>
                      cases h3 : createObjects create os2 with
                      | mk f3 t3 =>
                          simp only [h3] at ihos ⊢
                          cases f3 with
                          | some e3 => simp_all
                          | none => simp_all [List.append_assoc]
              | failed e =>
                  simp [createImportManifest, createRawManifest, createObjects,
                        createObject, hco]

end RancherTurtles

namespace RancherTurtles

theorem allObjs_cons_valid (os : List ManifestObj) (rest : List RawDoc) :
    allObjs (RawDoc.valid os :: rest) = os ++ allObjs rest := by
  simp [allObjs, RawDoc.objs]

/-- Claim C5: during manifest application over parseable documents, exactly
one create call is issued per parsed object, in order; an already-exists
outcome is treated as success and application continues, while any other
create failure aborts immediately, tracing only the objects up to and
including the failing one, and returns the wrapped error. -/
theorem C5_create_per_object (create : ManifestObj → CreateOutcome) (docs : List RawDoc)
    (hvalid : ∀ d ∈ docs, d.isValid = true) :
    ((∀ o ∈ allObjs docs, isHardFailure create o = false) →
      createImportManifest create docs = (none, allObjs docs)) ∧
    (∀ pre o post e, allObjs docs = pre ++ o :: post →
      (∀ p ∈ pre, isHardFailure create p = false) →
      create o = CreateOutcome.failed e →
      createImportManifest create docs =
        (some (GoErr.wrapped "creating object in remote cluster" e), pre ++ [o])) := by
  constructor
  · intro hsoft
    rw [createImportManifest_eq_createObjects create docs hvalid]
    exact createObjects_soft create (allObjs docs) hsoft
  · intro pre o post e hdecomp hpre ho
    rw [createImportManifest_eq_createObjects create docs hvalid, hdecomp]
    exact createObjects_first_failure create pre o post e hpre ho

/-- Witness for C5: a two-document stream whose middle object already exists
is fully applied with one create per object; with a hard-failing middle
object the apply aborts right after it. -/
theorem C5_create_per_object_witness :
    createImportManifest createEnvSoft docsTwo = (none, [obj1, obj2, obj3]) ∧
    createImportManifest createEnvHard docsTwo =
      (some (GoErr.wrapped "creating object in remote cluster" (GoErr.other "forbidden")),
       [obj1, obj2]) := by
  constructor
  · have h := (C5_create_per_object createEnvSoft docsTwo (by decide)).1 (by decide)
    simpa [docsTwo, allObjs, RawDoc.objs] using h
  · have h := (C5_create_per_object createEnvHard docsTwo (by decide)).2
      [obj1] obj2 [obj3] (GoErr.other "forbidden") (by decide) (by decide) rfl
    simpa using h

/-- Claim C6: a malformed document aborts `createImportManifest` with the
wrapped parse error; no object of the failing document or of any later
document is created, and the objects created from the earlier documents
remain traced, not rolled back. -/
theorem C6_parse_error_aborts (create : ManifestObj → CreateOutcome)
    (pre : List RawDoc) (msg : String) (post : List RawDoc)
    (hpre : ∀ d ∈ pre, d.isValid = true)
    (hsoft : ∀ o ∈ allObjs pre, isHardFailure create o = false) :
    createImportManifest create (pre ++ RawDoc.malformed msg :: post) =
      (some (GoErr.wrapped "error unmarshalling bytes or empty object passed" (GoErr.other msg)),
       allObjs pre) := by
  induction pre with
  | nil => simp [createImportManifest, createRawManifest, allObjs]
  | cons d pre2 ih =>
      have hd : d.isValid = true := hpre d (by simp)
      cases d with
      | malformed m => simp [RawDoc.isValid] at hd
      | valid os =>
          have hsos : ∀ o ∈ os, isHardFailure create o = false := fun o ho =>
            hsoft o (by rw [allObjs_cons_valid]; exact List.mem_append.mpr (Or.inl ho))
          have ih2 := ih (fun x hx => hpre x (by simp [hx]))
            (fun o ho => hsoft o
              (by rw [allObjs_cons_valid]; exact List.mem_append.mpr (Or.inr ho)))
          have hco : createRawManifest create (RawDoc.valid os) = (none, os) :=
            createObjects_soft create os hsos
          rw [List.cons_append, allObjs_cons_valid]
          simp only [createImportManifest, hco, ih2]

/-- Witness for C6: a stream with one valid document, one malformed document
and one valid document after it applies only the first object and returns the
parse error. -/
theorem C6_parse_error_aborts_witness :
    createImportManifest createEnvSoft
      ([RawDoc.valid [obj1]] ++ RawDoc.malformed "bad" :: [RawDoc.valid [obj3]]) =
      (some (GoErr.wrapped "error unmarshalling bytes or empty object passed"
        (GoErr.other "bad")), [obj1]) := by
  have h := C6_parse_error_aborts createEnvSoft [RawDoc.valid [obj1]] "bad"
    [RawDoc.valid [obj3]] (by decide) (by decide)
  simpa [allObjs, RawDoc.objs] using h

end RancherTurtles
